import Mathlib

/-!
Verification of the GavelRS daemon core (state store and scheduler loop)
against its natural-language specification.

The Rust source is shallowly embedded:
* `HashMap` / `HashSet` become association lists / lists of keys; lookup
  returns the first matching entry (keys are unique in the source, since
  Rust hash maps never hold duplicate keys).
* `f32` / `f64` arithmetic (`ResourceLimit.max_gpu_utilization`, the
  percentage memory computation) is modelled over `ℚ`.
* OS effects (file creation, command word-splitting, `spawn`, `/proc`
  probes, child exits) are modelled by oracle parameters.
* Rust's stable `sort_by` is modelled by `List.insertionSort`, which is a
  stable sort for the same total preorder.

Note on the data model: `core/src/utils/models.rs` declares
`TaskState = {Waiting, Running, Finished}` with no `Failed` variant and
`TaskMeta` without a `failure_reason` field, while
`daemon/src/daemon/state.rs` matches on `TaskState::Failed` and writes
`task.failure_reason` (its import comment reads "TaskState will now
include Failed").  The embedding therefore carries the four-variant state
and the `failure_reason` field so that `state.rs` can be embedded as
written; the scheduler (`scheduler.rs`) never mentions `Failed`, exactly
as in the source.
-/

namespace GavelRS

/-- TaskState from core/src/utils/models.rs; the `Failed` variant is the one
referenced by daemon/src/daemon/state.rs (absent from models.rs itself). -/
inductive TaskState where
  | Waiting
  | Running
  | Finished
  | Failed
deriving DecidableEq, Repr, BEq

instance : LawfulBEq TaskState where
  eq_of_beq := by intro a b h; cases a <;> cases b <;> first | rfl | exact absurd h (by decide)
  rfl := by intro a; cases a <;> decide

/-- TaskMeta from core/src/utils/models.rs; `failure_reason` is the field
written by daemon/src/daemon/state.rs (absent from models.rs itself). -/
structure TaskMeta where
  pid : Option Int
  id : Nat
  name : String
  cmd : String
  gpu_require : Nat
  state : TaskState
  log_path : String
  priority : Nat
  queue : String
  create_time : Nat
  gpu_ids : List Nat
  failure_reason : Option String
deriving DecidableEq, Repr

/-- MemoryRequirementType from core/src/utils/models.rs. -/
inductive MemoryRequirementType where
  | Ignore
  | AbsoluteMb
  | Percentage
deriving DecidableEq, Repr

/-- ResourceLimit from core/src/utils/models.rs; `max_gpu_utilization` is an
`f32` in the source, modelled as an exact rational. -/
structure ResourceLimit where
  memory_requirement_type : MemoryRequirementType
  memory_requirement_value : Nat
  max_gpu_utilization : ℚ
deriving DecidableEq, Repr

/-- Default for ResourceLimit from core/src/utils/models.rs. -/
def ResourceLimit.default : ResourceLimit :=
  { memory_requirement_type := .Ignore
    memory_requirement_value := 0
    max_gpu_utilization := -1 }

/-- QueueMeta from core/src/utils/models.rs. -/
structure QueueMeta where
  name : String
  max_concurrent : Nat
  priority : Nat
  waiting_task_ids : List Nat
  running_task_ids : List Nat
  allocated_gpus : List Nat
  resource_limit : ResourceLimit
deriving DecidableEq, Repr

/-- MemoryInfo from core/src/gpu/monitor.rs (byte counts). -/
structure MemoryInfo where
  total : Nat
  used : Nat
  free : Nat
deriving DecidableEq, Repr

/-- GpuStats from core/src/gpu/monitor.rs. -/
structure GpuStats where
  temperature : Nat
  core_usage : Nat
  memory_usage : MemoryInfo
  power_usage : Nat
deriving DecidableEq, Repr

/-- Association-list lookup: the first entry with the given key, mirroring
`HashMap::get` (keys are unique in a Rust hash map). -/
def alistLookup {K V : Type} [BEq K] : List (K × V) → K → Option V
  | [], _ => none
  | (k, v) :: rest, k' => if k == k' then some v else alistLookup rest k'

/-- Modify the first entry with the given key, mirroring `HashMap::get_mut`
followed by a field update; no entry with the key means no change. -/
def alistModify {K V : Type} [BEq K] (k : K) (f : V → V) : List (K × V) → List (K × V)
  | [] => []
  | (k', v) :: rest =>
      if k' == k then (k', f v) :: rest else (k', v) :: alistModify k f rest

/-- Insert-or-replace, mirroring `HashMap::insert`: replace the first entry
with the key if present, else append. -/
def alistInsert {K V : Type} [BEq K] (k : K) (v : V) : List (K × V) → List (K × V)
  | [] => [(k, v)]
  | (k', v') :: rest =>
      if k' == k then (k, v) :: rest else (k', v') :: alistInsert k v rest

/-- Whether a key is present, mirroring `HashMap::contains_key`. -/
def alistHasKey {K V : Type} [BEq K] (l : List (K × V)) (k : K) : Bool :=
  (alistLookup l k).isSome

/-- InnerDaemonState from daemon/src/daemon/state.rs: tasks, queues, GPU
stats, GPU allocations, ignored GPUs. -/
structure InnerDaemonState where
  tasks : List (Nat × TaskMeta)
  queues : List (String × QueueMeta)
  gpu_stats : List (Nat × GpuStats)
  gpu_allocations : List (Nat × Option String)
  ignored_gpus : List Nat
deriving DecidableEq, Repr

/-- DaemonState::new() — the empty initial state. -/
def initialState : InnerDaemonState :=
  { tasks := [], queues := [], gpu_stats := [], gpu_allocations := [], ignored_gpus := [] }

/-- Run a fallible state operation the way the scheduler does when it only
logs a failure: keep the previous state on error. -/
def applyOrKeep (s : InnerDaemonState) (r : Except String InnerDaemonState) : InnerDaemonState :=
  match r with
  | .ok s1 => s1
  | .error _ => s

/-- DaemonState::add_task from daemon/src/daemon/state.rs: insert the task
into the task map, append its id to the owning queue's waiting list, and
create a default queue (max_concurrent 1, priority 10, empty GPU set,
default limit) when the named queue does not exist. -/
def add_task (s : InnerDaemonState) (task : TaskMeta) : InnerDaemonState :=
  let task_id := task.id
  let queue_name := task.queue
  let s := { s with tasks := alistInsert task_id task s.tasks }
  match alistLookup s.queues queue_name with
  | some _ =>
      { s with queues := alistModify queue_name (fun q =>
          if q.waiting_task_ids.contains task_id then q
          else { q with waiting_task_ids := q.waiting_task_ids ++ [task_id] }) s.queues }
  | none =>
      let new_queue : QueueMeta :=
        { name := queue_name
          max_concurrent := 1
          priority := 10
          waiting_task_ids := [task_id]
          running_task_ids := []
          allocated_gpus := []
          resource_limit := ResourceLimit.default }
      { s with queues := alistInsert queue_name new_queue s.queues }

/-- DaemonState::set_task_pid from daemon/src/daemon/state.rs. -/
def set_task_pid (s : InnerDaemonState) (task_id : Nat) (pid : Option Int) :
    Except String InnerDaemonState :=
  match alistLookup s.tasks task_id with
  | some _ => .ok { s with tasks := alistModify task_id (fun t => { t with pid := pid }) s.tasks }
  | none => .error "Task not found when trying to set PID"

/-- Queue-list adjustment of DaemonState::update_task_state: remove the id
from the list belonging to the old state, then add it to the list belonging
to the new state (Waiting and Running only), guarding against duplicates. -/
def adjustQueueLists (task_id : Nat) (old_state new_state : TaskState) (q : QueueMeta) :
    QueueMeta :=
  let q :=
    match old_state with
    | .Waiting => { q with waiting_task_ids := q.waiting_task_ids.filter (fun i => i != task_id) }
    | .Running => { q with running_task_ids := q.running_task_ids.filter (fun i => i != task_id) }
    | _ => q
  match new_state with
  | .Waiting =>
      if q.waiting_task_ids.contains task_id then q
      else { q with waiting_task_ids := q.waiting_task_ids ++ [task_id] }
  | .Running =>
      if q.running_task_ids.contains task_id then q
      else { q with running_task_ids := q.running_task_ids ++ [task_id] }
  | _ => q

/-- DaemonState::update_task_state from daemon/src/daemon/state.rs:
set the task's state, set `failure_reason` iff the new state is Failed
(clear it otherwise), overwrite `gpu_ids` when `assigned_gpu_ids` is given,
and — when the state actually changed and the owning queue exists — adjust
the queue's waiting/running id lists. -/
def update_task_state (s : InnerDaemonState) (task_id : Nat) (new_state : TaskState)
    (assigned_gpu_ids : Option (List Nat)) (failure_reason : Option String) :
    Except String InnerDaemonState :=
  match alistLookup s.tasks task_id with
  | none => .error "Task not found"
  | some task =>
      let old_state := task.state
      let queue_name := task.queue
      let task1 : TaskMeta :=
        { task with
          state := new_state
          failure_reason := if new_state = .Failed then failure_reason else none
          gpu_ids := assigned_gpu_ids.getD task.gpu_ids }
      let s := { s with tasks := alistModify task_id (fun _ => task1) s.tasks }
      if old_state = new_state then .ok s
      else
        match alistLookup s.queues queue_name with
        | none => .ok s
        | some _ =>
            .ok { s with queues :=
              alistModify queue_name (adjustQueueLists task_id old_state new_state) s.queues }

/-- DaemonState::update_task_queue from daemon/src/daemon/state.rs: error if
the destination queue is missing or the task is missing; no-op success if
the task is already in the destination; otherwise rewrite the task's queue
field, scrub the id from the old queue's lists (per the state at move
start), and append it to the destination's waiting list unless present. -/
def update_task_queue (s : InnerDaemonState) (task_id : Nat) (new_queue_name : String) :
    Except String InnerDaemonState :=
  if ¬ (alistHasKey s.queues new_queue_name = true) then .error "Destination queue not found"
  else
    match alistLookup s.tasks task_id with
    | none => .error "Task not found"
    | some task =>
        if task.queue = new_queue_name then .ok s
        else
          let old_queue_name := task.queue
          let state_at_move := task.state
          let s :=
            { s with tasks :=
                alistModify task_id (fun t => { t with queue := new_queue_name }) s.tasks }
          let s :=
            match alistLookup s.queues old_queue_name with
            | none => s
            | some _ =>
                { s with queues := alistModify old_queue_name (fun oq =>
                    match state_at_move with
                    | .Waiting =>
                        { oq with waiting_task_ids :=
                            oq.waiting_task_ids.filter (fun i => i != task_id) }
                    | .Running =>
                        { oq with running_task_ids :=
                            oq.running_task_ids.filter (fun i => i != task_id) }
                    | _ =>
                        { oq with
                          waiting_task_ids := oq.waiting_task_ids.filter (fun i => i != task_id)
                          running_task_ids :=
                            oq.running_task_ids.filter (fun i => i != task_id) }) s.queues }
          let addDst : QueueMeta → QueueMeta := fun nq =>
            if ¬ nq.waiting_task_ids.contains task_id ∧ ¬ nq.running_task_ids.contains task_id
            then { nq with waiting_task_ids := nq.waiting_task_ids ++ [task_id] }
            else nq
          .ok { s with queues := alistModify new_queue_name addDst s.queues }

/-- DaemonState::update_task_priority from daemon/src/daemon/state.rs. -/
def update_task_priority (s : InnerDaemonState) (task_id : Nat) (new_priority : Nat) :
    Except String InnerDaemonState :=
  match alistLookup s.tasks task_id with
  | some _ =>
      .ok { s with tasks :=
        alistModify task_id (fun t => { t with priority := new_priority }) s.tasks }
  | none => .error "Task not found"

/-- DaemonState::add_queue from daemon/src/daemon/state.rs (insert-or-
overwrite). -/
def add_queue (s : InnerDaemonState) (queue : QueueMeta) : InnerDaemonState :=
  { s with queues := alistInsert queue.name queue s.queues }

/-- DEFAULT_WAITING_QUEUE_NAME from core/src/utils/mod.rs. -/
def DEFAULT_WAITING_QUEUE_NAME : String := "waiting_queue"

/-- DEFAULT_RUNNING_QUEUE_NAME from core/src/utils/mod.rs. -/
def DEFAULT_RUNNING_QUEUE_NAME : String := "running_queue"

/-- ensure_default_queues_exist from daemon/src/daemon/handlers/mod.rs:
create `waiting_queue` (no GPUs, max_concurrent 1, priority 10) if absent;
create `running_queue` if absent, allocating every non-ignored GPU present
in the state's GPU-stats map, with max_concurrent `count.max(1)` and
priority 1. -/
def ensure_default_queues_exist (s : InnerDaemonState) : InnerDaemonState :=
  let s :=
    match alistLookup s.queues DEFAULT_WAITING_QUEUE_NAME with
    | some _ => s
    | none =>
        add_queue s
          { name := DEFAULT_WAITING_QUEUE_NAME
            allocated_gpus := []
            max_concurrent := 1
            priority := 10
            waiting_task_ids := []
            running_task_ids := []
            resource_limit := ResourceLimit.default }
  match alistLookup s.queues DEFAULT_RUNNING_QUEUE_NAME with
  | some _ => s
  | none =>
      let available_gpus :=
        (s.gpu_stats.map Prod.fst).filter (fun gpu_id => ¬ s.ignored_gpus.contains gpu_id)
      add_queue s
        { name := DEFAULT_RUNNING_QUEUE_NAME
          allocated_gpus := available_gpus
          max_concurrent := available_gpus.length.max 1
          priority := 1
          waiting_task_ids := []
          running_task_ids := []
          resource_limit := ResourceLimit.default }

/-- Daemon boot (daemon/src/daemon/mod.rs `start`): `DaemonState::new()`
followed by `ensure_default_queues_exist`; the GPU-stats map is still empty
at this point because `update_all_gpu_stats` only runs later, inside the
scheduler loop. -/
def bootState : InnerDaemonState :=
  ensure_default_queues_exist initialState

/-- is_gpu_qualifying_for_queue from daemon/src/daemon/scheduler.rs.
Byte counts are converted to MB by integer division by 1024²; the
percentage computation (f64 in the source) and the utilization comparison
(f32 in the source) are carried out over exact rationals. -/
def is_gpu_qualifying_for_queue (gpu_id : Nat) (gpu_stat : GpuStats) (limit : ResourceLimit) :
    Bool :=
  let _ := gpu_id
  let free_memory_mb := gpu_stat.memory_usage.free / (1024 * 1024)
  let total_memory_mb := gpu_stat.memory_usage.total / (1024 * 1024)
  let memory_ok : Bool :=
    match limit.memory_requirement_type with
    | .Ignore => true
    | .AbsoluteMb => decide (limit.memory_requirement_value ≤ free_memory_mb)
    | .Percentage =>
        if total_memory_mb = 0 then false
        else
          decide (((limit.memory_requirement_value : ℚ) / 100) * (total_memory_mb : ℚ)
            ≤ (free_memory_mb : ℚ))
  if memory_ok = false then false
  else
    let utilization_ok : Bool :=
      if limit.max_gpu_utilization < 0 ∨ 100 < limit.max_gpu_utilization then true
      else decide ((gpu_stat.core_usage : ℚ) ≤ limit.max_gpu_utilization)
    if utilization_ok = false then false
    else true

/-- Descending-priority comparison used by `queues.sort_by` and
`waiting_tasks_meta.sort_by` in daemon/src/daemon/scheduler.rs (both sort
by `b.priority.cmp(&a.priority)`); Rust's `sort_by` is stable, modelled by
the stable `List.insertionSort`. -/
def prioDescQ (a b : QueueMeta) : Prop := b.priority ≤ a.priority

/-- Descending-priority comparison on tasks, see `prioDescQ`. -/
def prioDescT (a b : TaskMeta) : Prop := b.priority ≤ a.priority

instance : DecidableRel prioDescQ := fun a b => Nat.decLe b.priority a.priority

instance : DecidableRel prioDescT := fun a b => Nat.decLe b.priority a.priority

instance : IsTotal QueueMeta prioDescQ := ⟨fun a b => Nat.le_total b.priority a.priority⟩

instance : IsTrans QueueMeta prioDescQ := ⟨fun _ _ _ h1 h2 => Nat.le_trans h2 h1⟩

instance : IsTotal TaskMeta prioDescT := ⟨fun a b => Nat.le_total b.priority a.priority⟩

instance : IsTrans TaskMeta prioDescT := ⟨fun _ _ _ h1 h2 => Nat.le_trans h2 h1⟩

/-- Step 4 of schedule_tasks (daemon/src/daemon/scheduler.rs lines
129-134): the queue's raw owned-GPU set — the ids whose allocation entry is
`Some(queue)` with ignored ids excluded. -/
def owned_gpu_ids_raw (gpu_allocations : List (Nat × Option String))
    (ignored_gpus : List Nat) (queue_name : String) : List Nat :=
  ((gpu_allocations.filter (fun p => p.2 == some queue_name)).map Prod.fst).filter
    (fun gpu_id => ¬ ignored_gpus.contains gpu_id)

/-- Resource-limit filter of schedule_tasks (lines 137-149): owned GPUs
whose current stats satisfy the queue's ResourceLimit; a GPU with no stats
entry does not qualify. -/
def qualifying_owned_gpus (gpu_allocations : List (Nat × Option String))
    (ignored_gpus : List Nat) (gpu_stats : List (Nat × GpuStats)) (queue_name : String)
    (limit : ResourceLimit) : List Nat :=
  (owned_gpu_ids_raw gpu_allocations ignored_gpus queue_name).filter (fun gpu_id =>
    match alistLookup gpu_stats gpu_id with
    | some st => is_gpu_qualifying_for_queue gpu_id st limit
    | none => false)

/-- Step 5 of schedule_tasks (lines 152-165): GPUs used by the queue's
running tasks, read from the prefetched task map. -/
def used_gpu_ids (all_tasks : List (Nat × TaskMeta)) (q : QueueMeta) : List Nat :=
  q.running_task_ids.foldl
    (fun acc tid =>
      match alistLookup all_tasks tid with
      | some t => acc ++ t.gpu_ids
      | none => acc) []

/-- Step 7 of schedule_tasks (lines 176-192): the queue's waiting tasks,
looked up in the prefetched task map, keeping only those whose state is
Waiting. -/
def waiting_tasks_meta (all_tasks : List (Nat × TaskMeta)) (q : QueueMeta) : List TaskMeta :=
  q.waiting_task_ids.filterMap (fun tid =>
    match alistLookup all_tasks tid with
    | some t => if t.state = .Waiting then some t else none
    | none => none)

/-- The scheduling order of a queue's waiting tasks (line 193): a stable
sort by descending priority. -/
def sorted_waiting_tasks (all_tasks : List (Nat × TaskMeta)) (q : QueueMeta) : List TaskMeta :=
  (waiting_tasks_meta all_tasks q).insertionSort prioDescT

/-- Outcome of the OS-level part of launch_task_process, supplied as an
oracle: log-file creation failure, command-word-split failure, spawn
failure, or a spawned child with the given pid. -/
inductive LaunchOutcome where
  | fileErr
  | parseErr
  | spawnErr
  | spawned (pid : Int)
deriving DecidableEq, Repr

/-- State effect of launch_task_process (daemon/src/daemon/scheduler.rs
lines 312-470), with the OS steps abstracted by a `LaunchOutcome`:
file/parse failures return an error with no state change; a spawn failure
sets the task to `TaskState::Finished` (the source comment says "set task
state to Failed", but `Finished` is what the code passes) and returns an
error; a successful spawn records the child pid and succeeds.  The
detached monitor spawned on success is modelled separately by
`monitor_update`. -/
def launch_task_process (outcome : LaunchOutcome) (s : InnerDaemonState) (task : TaskMeta) :
    InnerDaemonState × Bool :=
  match outcome with
  | .fileErr => (s, false)
  | .parseErr => (s, false)
  | .spawnErr =>
      (applyOrKeep s (update_task_state s task.id .Finished none none), false)
  | .spawned pid =>
      (applyOrKeep s (set_task_pid s task.id (some pid)), true)

/-- What the detached per-child monitor writes for a given wait outcome
(daemon/src/daemon/scheduler.rs lines 420-443): `TaskState::Finished` in
all three branches — successful exit, non-zero exit (the code's own log
calls the task "failed"), and wait error (the code comment reads "Assume
failed if waiting errored"). -/
def monitor_final_state : Option Bool → TaskState
  | some true => .Finished
  | some false => .Finished
  | none => .Finished

/-- State effect of the detached monitor (lines 413-466): write the final
state (no gpu rewrite, no failure reason — the call passes no reason), then
clear the pid.  `exit_success = some b` models `Ok(status)` with
`status.success() = b`; `none` models an `Err` from `wait()`. -/
def monitor_update (s : InnerDaemonState) (task_id : Nat) (exit_success : Option Bool) :
    InnerDaemonState :=
  let s := applyOrKeep s (update_task_state s task_id (monitor_final_state exit_success) none none)
  applyOrKeep s (set_task_pid s task_id none)

/-- Result of probing `/proc/<pid>/status` in update_tasks, supplied as an
oracle: the file exists, is missing (NotFound), or the probe itself errors. -/
inductive ProcProbe where
  | found
  | notFound
  | probeErr
deriving DecidableEq, Repr

/-- update_tasks from daemon/src/daemon/scheduler.rs (lines 472-514), the
reconciliation pass: for every task that is Running *and has a pid*, probe
the process; when the probe reports NotFound, set the task to
`TaskState::Finished` (the log message says "Marking as Failed") with no
failure reason and clear its pid.  Running tasks without a pid are not
touched, and probe errors only log. -/
def update_tasks (probe : Int → ProcProbe) (s : InnerDaemonState) : InnerDaemonState :=
  let tasks_to_update : List Nat :=
    s.tasks.filterMap (fun p =>
      match p.2.state, p.2.pid with
      | .Running, some pid_val =>
          match probe pid_val with
          | .notFound => some p.2.id
          | _ => none
      | _, _ => none)
  tasks_to_update.foldl
    (fun s tid =>
      let s := applyOrKeep s (update_task_state s tid .Finished none none)
      applyOrKeep s (set_task_pid s tid none)) s

/-- The per-task placement loop of schedule_tasks (lines 198-302), for one
queue: stop at the concurrency cap; a task needing more GPUs than are
available is skipped; otherwise set it Running with the chosen GPUs, shrink
the available list, re-read the task, and launch — reverting to Waiting
(with no gpu rewrite) when the launch fails or the re-read is empty. -/
def schedule_task_loop (launch : Nat → LaunchOutcome) (s : InnerDaemonState)
    (max_concurrent : Nat) (running_count : Nat) (available : List Nat) :
    List TaskMeta → InnerDaemonState
  | [] => s
  | task :: rest =>
      if max_concurrent ≤ running_count then s
      else
        let required_gpus := task.gpu_require
        if 0 < required_gpus ∧ available.length < required_gpus then
          schedule_task_loop launch s max_concurrent running_count available rest
        else
          let gpus_to_assign := if 0 < required_gpus then available.take required_gpus else []
          match update_task_state s task.id .Running (some gpus_to_assign) none with
          | .error _ =>
              schedule_task_loop launch s max_concurrent running_count available rest
          | .ok s1 =>
              let available1 :=
                if gpus_to_assign.isEmpty then available
                else available.filter (fun gpu_id => ¬ gpus_to_assign.contains gpu_id)
              match alistLookup s1.tasks task.id with
              | none =>
                  let s2 := applyOrKeep s1 (update_task_state s1 task.id .Waiting none none)
                  schedule_task_loop launch s2 max_concurrent running_count available1 rest
              | some updated_task =>
                  match launch_task_process (launch task.id) s1 updated_task with
                  | (s2, true) =>
                      schedule_task_loop launch s2 max_concurrent (running_count + 1)
                        available1 rest
                  | (s2, false) =>
                      let s3 := applyOrKeep s2 (update_task_state s2 task.id .Waiting none none)
                      schedule_task_loop launch s3 max_concurrent running_count available1 rest

/-- The per-queue body of schedule_tasks (lines 118-303): re-read the
queue, build the candidate GPU list (owned, qualifying, minus used, sorted
ascending), collect and sort the waiting tasks, then run the placement
loop starting from the current running count. -/
def schedule_queue (launch : Nat → LaunchOutcome) (all_tasks : List (Nat × TaskMeta))
    (gpu_allocations : List (Nat × Option String)) (ignored_gpus : List Nat)
    (gpu_stats : List (Nat × GpuStats)) (s : InnerDaemonState) (queue_name : String) :
    InnerDaemonState :=
  match alistLookup s.queues queue_name with
  | none => s
  | some current_queue =>
      let qualifying := qualifying_owned_gpus gpu_allocations ignored_gpus gpu_stats
        current_queue.name current_queue.resource_limit
      let used := used_gpu_ids all_tasks current_queue
      let available_gpus_for_queue :=
        (qualifying.filter (fun gpu_id => ¬ used.contains gpu_id)).insertionSort (· ≤ ·)
      let sorted_tasks := sorted_waiting_tasks all_tasks current_queue
      schedule_task_loop launch s current_queue.max_concurrent
        current_queue.running_task_ids.length available_gpus_for_queue sorted_tasks

/-- schedule_tasks from daemon/src/daemon/scheduler.rs (lines 99-310): sort
all queues by descending priority (no queue is skipped), snapshot the GPU
allocations, ignored set, stats and task map once, then process each queue
in order, threading the state. -/
def schedule_tasks (launch : Nat → LaunchOutcome) (s : InnerDaemonState) : InnerDaemonState :=
  let queues := (s.queues.map Prod.snd).insertionSort prioDescQ
  let gpu_allocations := s.gpu_allocations
  let ignored_gpus := s.ignored_gpus
  let gpu_stats := s.gpu_stats
  let all_tasks := s.tasks
  queues.foldl
    (fun s queue_meta =>
      schedule_queue launch all_tasks gpu_allocations ignored_gpus gpu_stats s queue_meta.name) s

/-- Reply message type (core/src/rpc/message.rs), restricted to the
variants the embedded handlers produce. -/
inductive Message where
  | Ack (text : String)
  | Error (text : String)
deriving DecidableEq, Repr

/-- handle_queue_move from daemon/src/daemon/handlers/queue_handler.rs
(lines 157-194): unknown task or unknown destination queue produce Error
replies; a move to the task's current queue replies Ack without calling
update_task_queue; otherwise update_task_queue runs and its result decides
Ack or Error.  (Quote characters of the source's reply strings are
omitted.) -/
def handle_queue_move (s : InnerDaemonState) (task_id : Nat) (dest_queue : String) :
    Message × InnerDaemonState :=
  match alistLookup s.tasks task_id with
  | none => (.Error s!"Task with ID {task_id} not found", s)
  | some task =>
      if alistHasKey s.queues dest_queue = false then
        (.Error s!"Destination queue {dest_queue} does not exist", s)
      else
        let source_queue := task.queue
        if source_queue = dest_queue then
          (.Ack s!"Task {task_id} is already in queue {dest_queue}", s)
        else
          match update_task_queue s task_id dest_queue with
          | .ok s1 =>
              (.Ack s!"Successfully moved task {task_id} from queue {source_queue} to queue {dest_queue}", s1)
          | .error e =>
              (.Error s!"Failed to move task {task_id}: {e}", s)

/-- Whether the task map binds `id` to a task whose state is `st` and whose
queue field is `qn` — the per-id condition of invariant I2. -/
def taskOkB (tasks : List (Nat × TaskMeta)) (qn : String) (st : TaskState) (id : Nat) : Bool :=
  match alistLookup tasks id with
  | some t => t.state == st && t.queue == qn
  | none => false

/-- Invariant I2 of the specification: for every queue Q of the state,
every id in Q's waiting list is a task with state Waiting and queue == Q,
and every id in Q's running list is a task with state Running and
queue == Q. -/
def I2 (s : InnerDaemonState) : Prop :=
  ∀ p ∈ s.queues,
    (∀ id ∈ p.2.waiting_task_ids, taskOkB s.tasks p.1 .Waiting id = true) ∧
    (∀ id ∈ p.2.running_task_ids, taskOkB s.tasks p.1 .Running id = true)

/-- Uniqueness of queue names, as guaranteed by the source's
`HashMap<String, QueueMeta>`. -/
def queuesNodupKeys (s : InnerDaemonState) : Prop := (s.queues.map Prod.fst).Nodup

instance I2.decidable (s : InnerDaemonState) : Decidable (I2 s) := by
  unfold I2
  exact inferInstance

instance queuesNodupKeys.decidable (s : InnerDaemonState) : Decidable (queuesNodupKeys s) := by
  unfold queuesNodupKeys
  exact List.nodupDecidable _

/-- Fixture: a Running task (pid 7) whose queue is A. -/
def tRunA : TaskMeta :=
  { pid := some 7, id := 1, name := "t", cmd := "sleep 100", gpu_require := 0,
    state := .Running, log_path := "/tmp/gavel/1.log", priority := 5,
    queue := "A", create_time := 100, gpu_ids := [], failure_reason := none }

/-- Fixture: a state satisfying I2, holding the Running task `tRunA` in
queue A's running list, with a second queue B. -/
def sC6 : InnerDaemonState :=
  { tasks := [(1, tRunA)]
    queues := [("A",
      { name := "A", max_concurrent := 1, priority := 5, waiting_task_ids := [],
        running_task_ids := [1], allocated_gpus := [],
        resource_limit := ResourceLimit.default }),
      ("B",
      { name := "B", max_concurrent := 1, priority := 5, waiting_task_ids := [],
        running_task_ids := [], allocated_gpus := [],
        resource_limit := ResourceLimit.default })]
    gpu_stats := [], gpu_allocations := [], ignored_gpus := [] }

/-- Fixture: a CPU-only task (gpu_require = 0) submitted to the default
waiting_queue. -/
def cpuTask : TaskMeta :=
  { pid := none, id := 1, name := "task_1", cmd := "true", gpu_require := 0,
    state := .Waiting, log_path := "/tmp/gavel/1.log", priority := 5,
    queue := DEFAULT_WAITING_QUEUE_NAME, create_time := 100, gpu_ids := [],
    failure_reason := none }

/-- Fixture: the boot state after submitting `cpuTask`. -/
def sBoot1 : InnerDaemonState := add_task bootState cpuTask

/-- Fixture: `sBoot1` after one placement pass in which the spawn succeeds
with child pid 99. -/
def sRun1 : InnerDaemonState := schedule_tasks (fun _ => .spawned 99) sBoot1

/-- Fixture: a Running task that has a pid (5). -/
def taskWithPid : TaskMeta :=
  { pid := some 5, id := 1, name := "task_1", cmd := "sleep 100", gpu_require := 0,
    state := .Running, log_path := "/tmp/gavel/1.log", priority := 5,
    queue := "q", create_time := 100, gpu_ids := [], failure_reason := none }

/-- Fixture: a Running task that has no pid. -/
def taskNoPid : TaskMeta :=
  { pid := none, id := 2, name := "task_2", cmd := "sleep 100", gpu_require := 0,
    state := .Running, log_path := "/tmp/gavel/2.log", priority := 5,
    queue := "q", create_time := 101, gpu_ids := [], failure_reason := none }

/-- Fixture: a state holding the two Running tasks above in queue `q`. -/
def sReconcile : InnerDaemonState :=
  { tasks := [(1, taskWithPid), (2, taskNoPid)]
    queues := [("q",
      { name := "q", max_concurrent := 2, priority := 5, waiting_task_ids := [],
        running_task_ids := [1, 2], allocated_gpus := [],
        resource_limit := ResourceLimit.default })]
    gpu_stats := [], gpu_allocations := [], ignored_gpus := [] }

/-- Fixture: an older task (create_time 50) submitted to queue X. -/
def taskOldX : TaskMeta :=
  { pid := none, id := 11, name := "task_old", cmd := "true", gpu_require := 0,
    state := .Waiting, log_path := "/tmp/gavel/11.log", priority := 5,
    queue := "X", create_time := 50, gpu_ids := [], failure_reason := none }

/-- Fixture: a newer task (create_time 100) submitted to queue Q with the
same priority as `taskOldX`. -/
def taskNewQ : TaskMeta :=
  { pid := none, id := 12, name := "task_new", cmd := "true", gpu_require := 0,
    state := .Waiting, log_path := "/tmp/gavel/12.log", priority := 5,
    queue := "Q", create_time := 100, gpu_ids := [], failure_reason := none }

/-- Fixture: boot state after submitting `taskOldX` (to X) and `taskNewQ`
(to Q). -/
def sC8pre : InnerDaemonState := add_task (add_task bootState taskOldX) taskNewQ

/-- Fixture: `sC8pre` after moving the older task into Q — Q's waiting
list is now [12, 11], newer first. -/
def sC8 : InnerDaemonState := applyOrKeep sC8pre (update_task_queue sC8pre 11 "Q")

/-- Fixture: `taskOldX` as it stands after the move into Q. -/
def movedOldX : TaskMeta := { taskOldX with queue := "Q" }

/-- Fixture: the queue Q of `sC8`, written out. -/
def qFixC8 : QueueMeta :=
  { name := "Q", max_concurrent := 1, priority := 10, waiting_task_ids := [12, 11],
    running_task_ids := [], allocated_gpus := [], resource_limit := ResourceLimit.default }

/-- Fixture: the task map of `sC8`, restricted to Q's tasks. -/
def tasksFixC8 : List (Nat × TaskMeta) := [(11, movedOldX), (12, taskNewQ)]

/-- The memory check of is_gpu_qualifying_for_queue, extracted as a
standalone boolean for analysis. -/
def memOkB (st : GpuStats) (limit : ResourceLimit) : Bool :=
  match limit.memory_requirement_type with
  | .Ignore => true
  | .AbsoluteMb => decide (limit.memory_requirement_value ≤ st.memory_usage.free / (1024 * 1024))
  | .Percentage =>
      if st.memory_usage.total / (1024 * 1024) = 0 then false
      else
        decide (((limit.memory_requirement_value : ℚ) / 100)
            * ((st.memory_usage.total / (1024 * 1024) : Nat) : ℚ)
          ≤ ((st.memory_usage.free / (1024 * 1024) : Nat) : ℚ))

/-- The utilization check of is_gpu_qualifying_for_queue, extracted as a
standalone boolean for analysis. -/
def utilOkB (st : GpuStats) (limit : ResourceLimit) : Bool :=
  if limit.max_gpu_utilization < 0 ∨ 100 < limit.max_gpu_utilization then true
  else decide ((st.core_usage : ℚ) ≤ limit.max_gpu_utilization)

section AlistLemmas

variable {K V : Type} [BEq K] [LawfulBEq K]

theorem alistLookup_insert_self (l : List (K × V)) (k : K) (v : V) :
    alistLookup (alistInsert k v l) k = some v := by
  induction l with
  | nil => simp [alistInsert, alistLookup]
  | cons p rest ih =>
      obtain ⟨k0, v0⟩ := p
      by_cases hk : k0 = k
      · subst hk; simp [alistInsert, alistLookup]
      · simp only [alistInsert, alistLookup, beq_eq_false_iff_ne, ne_eq]
        rw [if_neg (by simpa using hk)]
        simp only [alistLookup]
        rw [if_neg (by simpa using hk)]
        exact ih

theorem alistLookup_insert_ne (l : List (K × V)) (k k' : K) (v : V) (h : k ≠ k') :
    alistLookup (alistInsert k v l) k' = alistLookup l k' := by
  induction l with
  | nil => simp [alistInsert, alistLookup, h]
  | cons p rest ih =>
      obtain ⟨k0, v0⟩ := p
      by_cases hk : k0 = k
      · subst hk
        simp only [alistInsert, beq_self_eq_true, if_pos]
        simp only [alistLookup]
        rw [if_neg (by simpa using h), if_neg (by simpa using h)]
      · simp only [alistInsert]
        rw [if_neg (by simpa using hk)]
        simp only [alistLookup]
        by_cases hk' : k0 = k'
        · subst hk'; simp
        · rw [if_neg (by simpa using hk'), if_neg (by simpa using hk')]
          exact ih

theorem alistLookup_modify_self (l : List (K × V)) (k : K) (f : V → V) :
    alistLookup (alistModify k f l) k = (alistLookup l k).map f := by
  induction l with
  | nil => simp [alistModify, alistLookup]
  | cons p rest ih =>
      obtain ⟨k0, v0⟩ := p
      by_cases hk : k0 = k
      · subst hk; simp [alistModify, alistLookup]
      · simp only [alistModify, alistLookup]
        rw [if_neg (by simpa using hk)]
        simp only [alistLookup]
        rw [if_neg (by simpa using hk), if_neg (by simpa using hk)]
        exact ih

theorem alistLookup_modify_ne (l : List (K × V)) (k k' : K) (f : V → V) (h : k ≠ k') :
    alistLookup (alistModify k f l) k' = alistLookup l k' := by
  induction l with
  | nil => simp [alistModify, alistLookup]
  | cons p rest ih =>
      obtain ⟨k0, v0⟩ := p
      by_cases hk : k0 = k
      · subst hk
        simp only [alistModify, beq_self_eq_true, if_pos]
        simp only [alistLookup]
        rw [if_neg (by simpa using h), if_neg (by simpa using h)]
      · simp only [alistModify]
        rw [if_neg (by simpa using hk)]
        simp only [alistLookup]
        by_cases hk' : k0 = k'
        · subst hk'; simp
        · rw [if_neg (by simpa using hk'), if_neg (by simpa using hk')]
          exact ih

theorem alistLookup_some_mem {l : List (K × V)} {k : K} {v : V}
    (h : alistLookup l k = some v) : (k, v) ∈ l := by
  induction l with
  | nil => simp [alistLookup] at h
  | cons p rest ih =>
      obtain ⟨k0, v0⟩ := p
      simp only [alistLookup] at h
      by_cases hk : k0 = k
      · subst hk
        simp only [beq_self_eq_true, if_pos] at h
        cases h
        exact List.mem_cons_self _ _
      · rw [if_neg (by simpa using hk)] at h
        exact List.mem_cons_of_mem _ (ih h)

theorem alistLookup_isSome_of_mem {l : List (K × V)} {p : K × V} (h : p ∈ l) :
    (alistLookup l p.1).isSome = true := by
  induction l with
  | nil => simp at h
  | cons q rest ih =>
      obtain ⟨k0, v0⟩ := q
      rcases List.mem_cons.mp h with h | h
      · subst h; simp [alistLookup]
      · simp only [alistLookup]
        by_cases hk : k0 = p.1
        · simp [hk]
        · rw [if_neg (by simpa using hk)]
          exact ih h

theorem alistModify_map_fst (l : List (K × V)) (k : K) (f : V → V) :
    (alistModify k f l).map Prod.fst = l.map Prod.fst := by
  induction l with
  | nil => simp [alistModify]
  | cons p rest ih =>
      obtain ⟨k0, v0⟩ := p
      by_cases hk : k0 = k
      · subst hk; simp [alistModify]
      · simp only [alistModify]
        rw [if_neg (by simpa using hk)]
        simp [ih]

theorem mem_alistModify_nodup {l : List (K × V)} {k : K} {f : V → V} {p : K × V}
    (hnd : (l.map Prod.fst).Nodup) (hp : p ∈ alistModify k f l) :
    (p ∈ l ∧ p.1 ≠ k) ∨ ∃ v, alistLookup l k = some v ∧ p = (k, f v) := by
  induction l with
  | nil => simp [alistModify] at hp
  | cons q rest ih =>
      obtain ⟨k0, v0⟩ := q
      simp only [List.map_cons, List.nodup_cons] at hnd
      by_cases hk : k0 = k
      · subst hk
        simp only [alistModify, beq_self_eq_true, if_pos] at hp
        rcases List.mem_cons.mp hp with h | h
        · exact Or.inr ⟨v0, by simp [alistLookup], h⟩
        · left
          refine ⟨List.mem_cons_of_mem _ h, ?_⟩
          intro hpk
          exact hnd.1 (hpk ▸ List.mem_map_of_mem Prod.fst h)
      · simp only [alistModify] at hp
        rw [if_neg (by simpa using hk)] at hp
        rcases List.mem_cons.mp hp with h | h
        · subst h
          exact Or.inl ⟨List.mem_cons_self _ _, by simpa using hk⟩
        · rcases ih hnd.2 h with ⟨h1, h2⟩ | ⟨v, hv, hpv⟩
          · exact Or.inl ⟨List.mem_cons_of_mem _ h1, h2⟩
          · refine Or.inr ⟨v, ?_, hpv⟩
            simp only [alistLookup]
            rw [if_neg (by simpa using hk)]
            exact hv

theorem alistHasKey_modify {K V : Type} [BEq K] [LawfulBEq K] (l : List (K × V)) (k k' : K)
    (f : V → V) : alistHasKey (alistModify k f l) k' = alistHasKey l k' := by
  unfold alistHasKey
  by_cases h : k = k'
  · subst h; rw [alistLookup_modify_self]; cases alistLookup l k <;> rfl
  · rw [alistLookup_modify_ne _ _ _ _ h]

end AlistLemmas

/-- Moving a task to the queue named in its own queue field succeeds
without touching the state (the early return of update_task_queue). -/
theorem update_task_queue_same_noop (s : InnerDaemonState) (id : Nat) (q : String) (t : TaskMeta)
    (ht : alistLookup s.tasks id = some t) (hq : t.queue = q)
    (hk : alistHasKey s.queues q = true) :
    update_task_queue s id q = .ok s := by
  unfold update_task_queue
  rw [if_neg (by simp [hk]), ht]
  simp [hq]

/-- After a successful update_task_queue, the task's queue field names the
destination and the destination is still a key of the queue map. -/
theorem update_task_queue_ok_dest (s s1 : InnerDaemonState) (id : Nat) (q : String)
    (h : update_task_queue s id q = .ok s1) :
    (∃ t, alistLookup s1.tasks id = some t ∧ t.queue = q) ∧
      alistHasKey s1.queues q = true := by
  unfold update_task_queue at h
  split at h
  · exact absurd h (by simp)
  · rename_i hkk
    have hk : alistHasKey s.queues q = true := not_not.mp hkk
    split at h
    · exact absurd h (by simp)
    · rename_i t ht
      split at h
      · rename_i hq
        cases h
        exact ⟨⟨t, ht, hq⟩, hk⟩
      · simp only [Except.ok.injEq] at h
        subst h
        constructor
        · refine ⟨{ t with queue := q }, ?_, rfl⟩
          cases holdq : alistLookup s.queues t.queue <;>
            simp only [holdq] <;>
            simp [alistLookup_modify_self, ht]
        · cases holdq : alistLookup s.queues t.queue <;>
            simp only [holdq] <;>
            simp [alistHasKey_modify, hk]

/-- Running update_task_queue twice with the same arguments produces the
same state as running it once (on error, the state is kept). -/
theorem update_task_queue_idem (s : InnerDaemonState) (id : Nat) (q : String) :
    applyOrKeep (applyOrKeep s (update_task_queue s id q))
        (update_task_queue (applyOrKeep s (update_task_queue s id q)) id q) =
      applyOrKeep s (update_task_queue s id q) := by
  cases h : update_task_queue s id q with
  | error e => simp [applyOrKeep, h]
  | ok s1 =>
      obtain ⟨⟨t, ht, hq⟩, hk⟩ := update_task_queue_ok_dest s s1 id q h
      simp [applyOrKeep, h, update_task_queue_same_noop s1 id q t ht hq hk]

/-- A Queue.Move to the task's current queue replies Ack without calling
update_task_queue and leaves the state untouched. -/
theorem handle_queue_move_same_ack (s : InnerDaemonState) (id : Nat) (q : String)
    (t : TaskMeta) (ht : alistLookup s.tasks id = some t) (hq : t.queue = q)
    (hk : alistHasKey s.queues q = true) :
    handle_queue_move s id q = (.Ack s!"Task {id} is already in queue {q}", s) := by
  unfold handle_queue_move
  simp only [ht]
  simp [hk, hq]

theorem taskOkB_modify_ne (tasks : List (Nat × TaskMeta)) (id i : Nat) (f : TaskMeta → TaskMeta)
    (qn : String) (st : TaskState) (h : i ≠ id) :
    taskOkB (alistModify id f tasks) qn st i = taskOkB tasks qn st i := by
  unfold taskOkB
  rw [alistLookup_modify_ne _ _ _ _ (Ne.symm h)]

theorem taskOkB_true_iff (tasks : List (Nat × TaskMeta)) (qn : String) (st : TaskState)
    (i : Nat) :
    taskOkB tasks qn st i = true ↔
      ∃ t, alistLookup tasks i = some t ∧ t.state = st ∧ t.queue = qn := by
  unfold taskOkB
  cases h : alistLookup tasks i with
  | none => simp
  | some t => simp [Bool.and_eq_true, beq_iff_eq]

theorem taskOkB_modify_self (tasks : List (Nat × TaskMeta)) (id : Nat)
    (f : TaskMeta → TaskMeta) (qn : String) (st : TaskState) (t : TaskMeta)
    (ht : alistLookup tasks id = some t) :
    taskOkB (alistModify id f tasks) qn st id = ((f t).state == st && (f t).queue == qn) := by
  unfold taskOkB
  rw [alistLookup_modify_self, ht]
  rfl

theorem key_ne_of_lookup_none {K V : Type} [BEq K] [LawfulBEq K] {l : List (K × V)}
    {p : K × V} {k : K} (hp : p ∈ l) (hno : alistLookup l k = none) : p.1 ≠ k := by
  intro he
  have hs := alistLookup_isSome_of_mem hp
  rw [he, hno] at hs
  exact absurd hs (by simp)

theorem taskOkB_modify_of_ne_queue (tasks : List (Nat × TaskMeta)) (id : Nat) (task : TaskMeta)
    (f : TaskMeta → TaskMeta) (qn : String) (st : TaskState) (i : Nat)
    (ht : alistLookup tasks id = some task) (hqn : task.queue ≠ qn)
    (hok : taskOkB tasks qn st i = true) :
    taskOkB (alistModify id f tasks) qn st i = true := by
  by_cases hii : i = id
  · subst hii
    obtain ⟨u, hu, hust, huq⟩ := (taskOkB_true_iff _ _ _ _).mp hok
    rw [ht] at hu
    cases hu
    exact absurd huq hqn
  · rw [taskOkB_modify_ne _ _ _ _ _ _ hii]
    exact hok

theorem taskOkB_modify_of_ne_state (tasks : List (Nat × TaskMeta)) (id : Nat) (task : TaskMeta)
    (f : TaskMeta → TaskMeta) (qn : String) (st : TaskState) (i : Nat)
    (ht : alistLookup tasks id = some task) (hst : task.state ≠ st)
    (hok : taskOkB tasks qn st i = true) :
    taskOkB (alistModify id f tasks) qn st i = true := by
  by_cases hii : i = id
  · subst hii
    obtain ⟨u, hu, hust, huq⟩ := (taskOkB_true_iff _ _ _ _).mp hok
    rw [ht] at hu
    cases hu
    exact absurd hust hst
  · rw [taskOkB_modify_ne _ _ _ _ _ _ hii]
    exact hok

theorem taskOkB_modify_stable (tasks : List (Nat × TaskMeta)) (id : Nat) (task : TaskMeta)
    (f : TaskMeta → TaskMeta) (qn : String) (st : TaskState) (i : Nat)
    (ht : alistLookup tasks id = some task)
    (hfs : (f task).state = task.state) (hfq : (f task).queue = task.queue)
    (hok : taskOkB tasks qn st i = true) :
    taskOkB (alistModify id f tasks) qn st i = true := by
  by_cases hii : i = id
  · subst hii
    obtain ⟨u, hu, hust, huq⟩ := (taskOkB_true_iff _ _ _ _).mp hok
    rw [ht] at hu
    cases hu
    rw [taskOkB_modify_self _ _ _ _ _ _ ht]
    simp [hfs, hfq, hust, huq]
  · rw [taskOkB_modify_ne _ _ _ _ _ _ hii]
    exact hok

theorem mem_adjust_waiting (i tid : Nat) (old ns : TaskState) (q : QueueMeta)
    (h : i ∈ (adjustQueueLists tid old ns q).waiting_task_ids) :
    (i = tid ∧ ns = .Waiting) ∨ (i ∈ q.waiting_task_ids ∧ (old = .Waiting → i ≠ tid)) := by
  unfold adjustQueueLists at h
  cases old <;> cases ns
  all_goals try simp_all [List.mem_filter, List.mem_append, bne_iff_ne]
  all_goals try split_ifs at h
  all_goals try simp_all [List.mem_filter, List.mem_append, bne_iff_ne]
  all_goals tauto

theorem mem_adjust_running (i tid : Nat) (old ns : TaskState) (q : QueueMeta)
    (h : i ∈ (adjustQueueLists tid old ns q).running_task_ids) :
    (i = tid ∧ ns = .Running) ∨ (i ∈ q.running_task_ids ∧ (old = .Running → i ≠ tid)) := by
  unfold adjustQueueLists at h
  cases old <;> cases ns
  all_goals try simp_all [List.mem_filter, List.mem_append, bne_iff_ne]
  all_goals try split_ifs at h
  all_goals try simp_all [List.mem_filter, List.mem_append, bne_iff_ne]
  all_goals tauto

/-- update_task_state preserves invariant I2 on every success, for any
target state, gpu rewrite and failure reason. -/
theorem update_task_state_preserves_I2 (s s1 : InnerDaemonState) (id : Nat) (ns : TaskState)
    (g : Option (List Nat)) (fr : Option String)
    (hI : I2 s) (hnd : queuesNodupKeys s)
    (h : update_task_state s id ns g fr = .ok s1) : I2 s1 := by
  unfold update_task_state at h
  split at h
  · exact absurd h (by simp)
  · rename_i task ht
    by_cases heq : task.state = ns
    · rw [if_pos heq] at h
      simp only [Except.ok.injEq] at h
      subst h
      intro p hp
      obtain ⟨hw, hr⟩ := hI p hp
      refine ⟨fun i hi => ?_, fun i hi => ?_⟩
      · exact taskOkB_modify_stable _ _ task _ _ _ _ ht (by simp [heq]) (by simp) (hw i hi)
      · exact taskOkB_modify_stable _ _ task _ _ _ _ ht (by simp [heq]) (by simp) (hr i hi)
    · rw [if_neg heq] at h
      cases hq0 : alistLookup s.queues task.queue with
      | none =>
        simp only [hq0] at h
        simp only [Except.ok.injEq] at h
        subst h
        intro p hp
        obtain ⟨hw, hr⟩ := hI p hp
        have hqn : task.queue ≠ p.1 := Ne.symm (key_ne_of_lookup_none hp hq0)
        exact ⟨fun i hi => taskOkB_modify_of_ne_queue _ _ task _ _ _ _ ht hqn (hw i hi),
               fun i hi => taskOkB_modify_of_ne_queue _ _ task _ _ _ _ ht hqn (hr i hi)⟩
      | some q0 =>
        simp only [hq0] at h
        simp only [Except.ok.injEq] at h
        subst h
        intro p hp
        rcases mem_alistModify_nodup hnd hp with ⟨hpmem, hpne⟩ | ⟨v, hv, hpeq⟩
        · obtain ⟨hw, hr⟩ := hI p hpmem
          have hqn : task.queue ≠ p.1 := Ne.symm hpne
          exact ⟨fun i hi => taskOkB_modify_of_ne_queue _ _ task _ _ _ _ ht hqn (hw i hi),
                 fun i hi => taskOkB_modify_of_ne_queue _ _ task _ _ _ _ ht hqn (hr i hi)⟩
        · rw [hq0] at hv
          cases hv
          obtain ⟨hw0, hr0⟩ := hI (task.queue, q0) (alistLookup_some_mem hq0)
          subst hpeq
          refine ⟨fun i hi => ?_, fun i hi => ?_⟩
          · rcases mem_adjust_waiting i id task.state ns q0 hi with ⟨hii, hns⟩ | ⟨hiw, hold⟩
            · subst hii
              rw [taskOkB_modify_self _ _ _ _ _ _ ht]
              simp [hns]
            · have hok := hw0 i hiw
              by_cases hii : i = id
              · subst hii
                obtain ⟨u, hu, hust, huq⟩ := (taskOkB_true_iff _ _ _ _).mp hok
                rw [ht] at hu
                cases hu
                exact absurd rfl (hold hust)
              · rw [taskOkB_modify_ne _ _ _ _ _ _ hii]
                exact hok
          · rcases mem_adjust_running i id task.state ns q0 hi with ⟨hii, hns⟩ | ⟨hiw, hold⟩
            · subst hii
              rw [taskOkB_modify_self _ _ _ _ _ _ ht]
              simp [hns]
            · have hok := hr0 i hiw
              by_cases hii : i = id
              · subst hii
                obtain ⟨u, hu, hust, huq⟩ := (taskOkB_true_iff _ _ _ _).mp hok
                rw [ht] at hu
                cases hu
                exact absurd rfl (hold hust)
              · rw [taskOkB_modify_ne _ _ _ _ _ _ hii]
                exact hok

theorem taskOkB_addDst (tasks : List (Nat × TaskMeta)) (id : Nat) (t : TaskMeta) (qn : String)
    (nq0 : QueueMeta) (ht : alistLookup tasks id = some t) (hq : t.queue ≠ qn)
    (hws : t.state = .Waiting)
    (hw0 : ∀ i ∈ nq0.waiting_task_ids, taskOkB tasks qn .Waiting i = true)
    (hr0 : ∀ i ∈ nq0.running_task_ids, taskOkB tasks qn .Running i = true) :
    (∀ i ∈ (if ¬ nq0.waiting_task_ids.contains id = true ∧
          ¬ nq0.running_task_ids.contains id = true
        then { nq0 with waiting_task_ids := nq0.waiting_task_ids ++ [id] }
        else nq0).waiting_task_ids,
        taskOkB (alistModify id (fun u => { u with queue := qn }) tasks) qn .Waiting i = true) ∧
    (∀ i ∈ (if ¬ nq0.waiting_task_ids.contains id = true ∧
          ¬ nq0.running_task_ids.contains id = true
        then { nq0 with waiting_task_ids := nq0.waiting_task_ids ++ [id] }
        else nq0).running_task_ids,
        taskOkB (alistModify id (fun u => { u with queue := qn }) tasks) qn .Running i = true) := by
  split_ifs with hc
  · constructor
    · intro i hi
      simp only [List.mem_append, List.mem_singleton] at hi
      rcases hi with hi | hi
      · exact taskOkB_modify_of_ne_queue _ _ t _ _ _ _ ht hq (hw0 i hi)
      · subst hi
        rw [taskOkB_modify_self _ _ _ _ _ _ ht]
        simp [hws]
    · intro i hi
      exact taskOkB_modify_of_ne_queue _ _ t _ _ _ _ ht hq (hr0 i hi)
  · exact ⟨fun i hi => taskOkB_modify_of_ne_queue _ _ t _ _ _ _ ht hq (hw0 i hi),
           fun i hi => taskOkB_modify_of_ne_queue _ _ t _ _ _ _ ht hq (hr0 i hi)⟩

/-- update_task_queue preserves invariant I2 whenever the moved task is in
state Waiting. -/
theorem update_task_queue_waiting_preserves_I2 (s s1 : InnerDaemonState) (id : Nat)
    (qn : String) (t : TaskMeta)
    (hI : I2 s) (hnd : queuesNodupKeys s)
    (ht : alistLookup s.tasks id = some t) (hws : t.state = .Waiting)
    (h : update_task_queue s id qn = .ok s1) : I2 s1 := by
  unfold update_task_queue at h
  split at h
  · exact absurd h (by simp)
  · rename_i hkk
    simp only [ht] at h
    by_cases hq : t.queue = qn
    · rw [if_pos hq] at h
      simp only [Except.ok.injEq] at h
      subst h
      exact hI
    · rw [if_neg hq] at h
      rw [hws] at h
      cases hq0 : alistLookup s.queues t.queue with
      | none =>
        simp only [hq0] at h
        simp only [Except.ok.injEq] at h
        subst h
        intro p hp
        rcases mem_alistModify_nodup hnd hp with ⟨hpmem, hpne⟩ | ⟨nq0, hv, hpeq⟩
        · obtain ⟨hw, hr⟩ := hI p hpmem
          have hqn : t.queue ≠ p.1 := Ne.symm (key_ne_of_lookup_none hpmem hq0)
          exact ⟨fun i hi => taskOkB_modify_of_ne_queue _ _ t _ _ _ _ ht hqn (hw i hi),
                 fun i hi => taskOkB_modify_of_ne_queue _ _ t _ _ _ _ ht hqn (hr i hi)⟩
        · obtain ⟨hw0, hr0⟩ := hI (qn, nq0) (alistLookup_some_mem hv)
          subst hpeq
          exact taskOkB_addDst s.tasks id t qn nq0 ht hq hws hw0 hr0
      | some q0 =>
        simp only [hq0] at h
        simp only [Except.ok.injEq] at h
        subst h
        have hndMid : ((alistModify t.queue
            (fun oq => { oq with
              waiting_task_ids := oq.waiting_task_ids.filter (fun i => i != id) })
            s.queues).map Prod.fst).Nodup := by
          rw [alistModify_map_fst]
          exact hnd
        intro p hp
        rcases mem_alistModify_nodup hndMid hp with ⟨hpmemM, hpne⟩ | ⟨nq0, hv, hpeq⟩
        · rcases mem_alistModify_nodup hnd hpmemM with ⟨hpmem, hpne2⟩ | ⟨q0', hv2, hpeq2⟩
          · obtain ⟨hw, hr⟩ := hI p hpmem
            have hqn : t.queue ≠ p.1 := Ne.symm hpne2
            exact ⟨fun i hi => taskOkB_modify_of_ne_queue _ _ t _ _ _ _ ht hqn (hw i hi),
                   fun i hi => taskOkB_modify_of_ne_queue _ _ t _ _ _ _ ht hqn (hr i hi)⟩
          · rw [hq0] at hv2
            cases hv2
            obtain ⟨hw0, hr0⟩ := hI (t.queue, q0) (alistLookup_some_mem hq0)
            subst hpeq2
            constructor
            · intro i hi
              simp only [List.mem_filter, bne_iff_ne, ne_eq, decide_eq_true_eq] at hi
              obtain ⟨hiw, hii⟩ := hi
              rw [taskOkB_modify_ne _ _ _ _ _ _ hii]
              exact hw0 i hiw
            · intro i hi
              exact taskOkB_modify_of_ne_state _ _ t _ _ _ _ ht (by rw [hws]; decide)
                (hr0 i hi)
        · have hv' : alistLookup s.queues qn = some nq0 := by
            rw [← alistLookup_modify_ne s.queues t.queue qn
              (fun oq => { oq with
                waiting_task_ids := oq.waiting_task_ids.filter (fun i => i != id) }) hq]
            exact hv
          obtain ⟨hw0, hr0⟩ := hI (qn, nq0) (alistLookup_some_mem hv')
          subst hpeq
          exact taskOkB_addDst s.tasks id t qn nq0 ht hq hws hw0 hr0

/-- C6 counterexample: moving a Running task with update_task_queue breaks
invariant I2.  On a state satisfying I2 with task 1 Running in queue A,
update_task_queue(1, "B") succeeds and produces a state where B's waiting
list holds the still-Running task — violating I2 (the source itself notes
the moved task "will sit in waiting_task_ids"). -/
theorem C6_move_running_breaks_I2 :
    I2 sC6 ∧
    (update_task_queue sC6 1 "B").isOk = true ∧
    ¬ I2 (applyOrKeep sC6 (update_task_queue sC6 1 "B")) := by
  decide

/-- C6 amended: update_task_state preserves invariant I2 on every success
(any state, target state, gpu rewrite and failure reason), and
update_task_queue preserves I2 when the moved task is in state Waiting;
update_task_queue applied to a Running task does NOT preserve I2 — it
parks the id in the destination's waiting list while the task stays
Running (see the counterexample).  Queue keys are assumed distinct, as a
Rust HashMap guarantees. -/
theorem C6_I2_preservation :
    (∀ (s s1 : InnerDaemonState) (id : Nat) (ns : TaskState) (g : Option (List Nat))
        (fr : Option String), I2 s → queuesNodupKeys s →
        update_task_state s id ns g fr = .ok s1 → I2 s1) ∧
    (∀ (s s1 : InnerDaemonState) (id : Nat) (qn : String) (t : TaskMeta),
        I2 s → queuesNodupKeys s → alistLookup s.tasks id = some t → t.state = .Waiting →
        update_task_queue s id qn = .ok s1 → I2 s1) :=
  ⟨fun s s1 id ns g fr hI hnd h => update_task_state_preserves_I2 s s1 id ns g fr hI hnd h,
   fun s s1 id qn t hI hnd ht hws h =>
     update_task_queue_waiting_preserves_I2 s s1 id qn t hI hnd ht hws h⟩

/-- Witness for C6: I2 survives a concrete update_task_state (finishing the
Running task of `sC6`) and a concrete update_task_queue of the Waiting task
11 from X to Q in `sC8pre`. -/
theorem C6_I2_preservation_witness :
    I2 (applyOrKeep sC6 (update_task_state sC6 1 .Finished none none)) ∧
    I2 (applyOrKeep sC8pre (update_task_queue sC8pre 11 "Q")) :=
  ⟨C6_I2_preservation.1 sC6 (applyOrKeep sC6 (update_task_state sC6 1 .Finished none none))
      1 .Finished none none (by decide) (by decide) (by rfl),
   C6_I2_preservation.2 sC8pre (applyOrKeep sC8pre (update_task_queue sC8pre 11 "Q"))
      11 "Q" taskOldX (by decide) (by decide) (by decide) (by decide) (by rfl)⟩

/-- C1: the claim states that the detached monitor moves the task to
Finished on a successful exit and to Failed (with a reason describing the
exit status) on a non-zero exit or wait error, clearing the pid in all
cases.  Evaluating the code: on a Running task with pid 99, all three wait
outcomes — success, non-zero exit, wait error — set the state to Finished
with no failure reason; the pid is cleared in all three.  The non-success
branches contradict the claim (and the code's own log text, which calls
the task "failed"). -/
theorem C1_monitor_always_finished :
    ((alistLookup (monitor_update sRun1 1 (some true)).tasks 1).map
        (fun t => (t.state, t.failure_reason, t.pid)) = some (.Finished, none, none)) ∧
    ((alistLookup (monitor_update sRun1 1 (some false)).tasks 1).map
        (fun t => (t.state, t.failure_reason, t.pid)) = some (.Finished, none, none)) ∧
    ((alistLookup (monitor_update sRun1 1 none).tasks 1).map
        (fun t => (t.state, t.failure_reason, t.pid)) = some (.Finished, none, none)) := by
  decide

/-- C2: the claim states that reconciliation moves a pid-less Running task
to Failed with reason "was Running without a pid", and a Running task whose
process disappeared to Failed with a reason.  Evaluating the code on a
state with Running task 1 (pid 5, process gone) and Running task 2 (no
pid): task 1 becomes Finished with no failure reason (the code's log says
"Marking as Failed"), and task 2 is left untouched — still Running with no
pid. -/
theorem C2_reconciliation_eval :
    ((alistLookup (update_tasks (fun _ => .notFound) sReconcile).tasks 1).map
        (fun t => (t.state, t.failure_reason, t.pid)) = some (.Finished, none, none)) ∧
    (alistLookup (update_tasks (fun _ => .notFound) sReconcile).tasks 2 = some taskNoPid) ∧
    taskNoPid.state = .Running := by
  decide

/-- C3: the claim states that a task whose spawn fails after the placement
step set it Running is transitioned to Failed with the spawn error as the
reason.  Evaluating the code on the boot state with one waiting CPU task
whose spawn fails: launch_task_process sets the task to Finished (its
comment says "set task state to Failed") and returns an error, whereupon
schedule_tasks reverts the task to Waiting — the task ends the cycle
Waiting with no failure reason, not Failed. -/
theorem C3_spawn_failure_eval :
    (alistLookup (schedule_tasks (fun _ => .spawnErr) sBoot1).tasks 1).map
        (fun t => (t.state, t.failure_reason)) = some (.Waiting, none) := by
  decide

/-- C4 counterexample: a non-ignored GPU whose allocation entry is None is
NOT in the queue's candidate set, contrary to the claim's
"plus every non-ignored GPU whose allocation entry is None or absent". -/
theorem C4_unowned_gpu_not_candidate :
    alistLookup [((0 : Nat), (none : Option String))] 0 = some none ∧
    ([] : List Nat) = [] ∧
    0 ∉ owned_gpu_ids_raw [(0, none)] [] "q1" := by
  decide

/-- C4 amended: a queue's candidate GPU set (before the resource-limit
filter) consists exactly of the non-ignored GPUs whose allocation entry is
Some(Q); GPUs with a None or absent allocation entry are not candidates
for any queue. -/
theorem C4_candidate_set_characterization (allocs : List (Nat × Option String))
    (ignored : List Nat) (qn : String) (g : Nat) :
    g ∈ owned_gpu_ids_raw allocs ignored qn ↔ (g, some qn) ∈ allocs ∧ g ∉ ignored := by
  unfold owned_gpu_ids_raw
  simp only [List.mem_filter, List.mem_map, decide_eq_true_eq, Bool.not_eq_true,
    beq_iff_eq, List.contains, List.elem_eq_mem, decide_eq_false_iff_not]
  constructor
  · rintro ⟨⟨p, ⟨hpmem, hq⟩, hg⟩, hi⟩
    refine ⟨?_, hi⟩
    obtain ⟨p1, p2⟩ := p
    simp only at hg hq
    subst hg
    subst hq
    exact hpmem
  · rintro ⟨hmem, hi⟩
    exact ⟨⟨(g, some qn), ⟨hmem, rfl⟩, rfl⟩, hi⟩

/-- The qualifying predicate equals the conjunction of its extracted
memory and utilization checks. -/
theorem qualifying_eq_and (gpu_id : Nat) (st : GpuStats) (limit : ResourceLimit) :
    is_gpu_qualifying_for_queue gpu_id st limit = (memOkB st limit && utilOkB st limit) := by
  unfold is_gpu_qualifying_for_queue memOkB utilOkB
  cases limit.memory_requirement_type <;> split_ifs <;> simp_all [← decide_not, not_le]

/-- C7: the qualifying predicate returns true iff both checks of the claim
pass — the memory check (Ignore always passes; AbsoluteMB passes iff
free_MB ≥ limit.value with MB = bytes / 1024²; Percentage passes iff
total_MB > 0 and (limit.value/100)·total_MB ≤ free_MB) and the utilization
check (passes iff max_gpu_utilization lies outside [0,100] or the core
utilization is ≤ max_gpu_utilization).  Fractional arithmetic (f32/f64 in
the source) is modelled over exact rationals. -/
theorem C7_qualifying_iff (gpu_id : Nat) (st : GpuStats) (limit : ResourceLimit) :
    is_gpu_qualifying_for_queue gpu_id st limit = true ↔
      ((match limit.memory_requirement_type with
        | .Ignore => True
        | .AbsoluteMb => limit.memory_requirement_value ≤ st.memory_usage.free / (1024 * 1024)
        | .Percentage =>
            0 < st.memory_usage.total / (1024 * 1024) ∧
              ((limit.memory_requirement_value : ℚ) / 100)
                  * ((st.memory_usage.total / (1024 * 1024) : Nat) : ℚ)
                ≤ ((st.memory_usage.free / (1024 * 1024) : Nat) : ℚ)) ∧
       (limit.max_gpu_utilization < 0 ∨ 100 < limit.max_gpu_utilization ∨
          (st.core_usage : ℚ) ≤ limit.max_gpu_utilization)) := by
  rw [qualifying_eq_and, Bool.and_eq_true]
  constructor
  · rintro ⟨hm, hu⟩
    constructor
    · unfold memOkB at hm
      cases hmt : limit.memory_requirement_type <;> rw [hmt] at hm <;> simp_all
      omega
    · unfold utilOkB at hu
      by_cases h : limit.max_gpu_utilization < 0 ∨ 100 < limit.max_gpu_utilization
      · tauto
      · rw [if_neg h] at hu
        simp at hu
        tauto
  · rintro ⟨hm, hu⟩
    constructor
    · unfold memOkB
      cases hmt : limit.memory_requirement_type <;> rw [hmt] at hm <;> simp_all
      omega
    · unfold utilOkB
      by_cases h : limit.max_gpu_utilization < 0 ∨ 100 < limit.max_gpu_utilization
      · rw [if_pos h]
      · rw [if_neg h]
        push_neg at h
        rcases hu with hu | hu | hu
        · exact absurd hu (not_lt.mpr h.1)
        · exact absurd hu (not_lt.mpr h.2)
        · simpa using hu

/-- C9 counterexample: at daemon boot `ensure_default_queues_exist` runs
before any telemetry refresh, so the GPU-stats map is empty: the created
running_queue owns no GPUs and has max_concurrent 1, whereas the claim
requires max_concurrent to equal the non-ignored GPU count (0 here). -/
theorem C9_boot_running_queue_cex :
    ((alistLookup bootState.queues DEFAULT_RUNNING_QUEUE_NAME).map
        (fun q => (q.allocated_gpus, q.max_concurrent))) = some ([], 1) ∧
    ((bootState.gpu_stats.map Prod.fst).filter
        (fun g => ¬ bootState.ignored_gpus.contains g)).length = 0 ∧
    ((alistLookup bootState.queues DEFAULT_RUNNING_QUEUE_NAME).map
        (fun q => q.max_concurrent)) ≠ some 0 := by
  decide

/-- C9 amended: the running_queue created by ensure_default_queues_exist
owns exactly the non-ignored GPUs present in the state's GPU-stats map at
creation time, and its max_concurrent is the maximum of that GPU count and
1.  At boot the stats map is still empty (telemetry has not yet been
refreshed), so the queue owns no GPUs and has max_concurrent 1. -/
theorem C9_running_queue_at_creation (s : InnerDaemonState)
    (h : alistLookup s.queues DEFAULT_RUNNING_QUEUE_NAME = none) :
    alistLookup (ensure_default_queues_exist s).queues DEFAULT_RUNNING_QUEUE_NAME =
      some { name := DEFAULT_RUNNING_QUEUE_NAME
             allocated_gpus := (s.gpu_stats.map Prod.fst).filter
               (fun gpu_id => ¬ s.ignored_gpus.contains gpu_id)
             max_concurrent := ((s.gpu_stats.map Prod.fst).filter
               (fun gpu_id => ¬ s.ignored_gpus.contains gpu_id)).length.max 1
             priority := 1
             waiting_task_ids := []
             running_task_ids := []
             resource_limit := ResourceLimit.default } := by
  unfold ensure_default_queues_exist
  cases hw : alistLookup s.queues DEFAULT_WAITING_QUEUE_NAME with
  | some q =>
      simp only [hw, h, add_queue]
      exact alistLookup_insert_self _ _ _
  | none =>
      have hne : DEFAULT_WAITING_QUEUE_NAME ≠ DEFAULT_RUNNING_QUEUE_NAME := by decide
      simp only [hw, add_queue]
      rw [alistLookup_insert_ne _ _ _ _ hne, h]
      simp only []
      exact alistLookup_insert_self _ _ _

/-- Witness for C9: applying the theorem to the empty initial state shows
the boot running_queue owns no GPUs and has max_concurrent 1. -/
theorem C9_running_queue_witness :
    alistLookup (ensure_default_queues_exist initialState).queues DEFAULT_RUNNING_QUEUE_NAME =
      some { name := DEFAULT_RUNNING_QUEUE_NAME
             allocated_gpus := ((initialState.gpu_stats.map Prod.fst).filter
               (fun gpu_id => ¬ initialState.ignored_gpus.contains gpu_id))
             max_concurrent := ((initialState.gpu_stats.map Prod.fst).filter
               (fun gpu_id => ¬ initialState.ignored_gpus.contains gpu_id)).length.max 1
             priority := 1
             waiting_task_ids := []
             running_task_ids := []
             resource_limit := ResourceLimit.default } :=
  C9_running_queue_at_creation initialState (by decide)

/-- C10: moving a task to the queue it already belongs to is a successful
no-op — update_task_queue returns Ok with the state unchanged,
handle_queue_move replies Ack with the state unchanged — and
update_task_queue is idempotent in general. -/
theorem C10_move_to_current_queue_noop :
    (∀ (s : InnerDaemonState) (id : Nat) (q : String) (t : TaskMeta),
        alistLookup s.tasks id = some t → t.queue = q → alistHasKey s.queues q = true →
        update_task_queue s id q = .ok s) ∧
    (∀ (s : InnerDaemonState) (id : Nat) (q : String) (t : TaskMeta),
        alistLookup s.tasks id = some t → t.queue = q → alistHasKey s.queues q = true →
        handle_queue_move s id q = (.Ack s!"Task {id} is already in queue {q}", s)) ∧
    (∀ (s : InnerDaemonState) (id : Nat) (q : String),
        applyOrKeep (applyOrKeep s (update_task_queue s id q))
            (update_task_queue (applyOrKeep s (update_task_queue s id q)) id q) =
          applyOrKeep s (update_task_queue s id q)) :=
  ⟨fun s id q t ht hq hk => update_task_queue_same_noop s id q t ht hq hk,
   fun s id q t ht hq hk => handle_queue_move_same_ack s id q t ht hq hk,
   fun s id q => update_task_queue_idem s id q⟩

/-- C5 counterexample: the scheduler does not skip waiting_queue.  On the
boot state with one waiting CPU task (gpu_require = 0) in waiting_queue,
one placement pass transitions that task from Waiting to Running while its
queue is still waiting_queue — the claim says this never happens. -/
theorem C5_waiting_queue_scheduled_cex :
    (alistLookup sBoot1.tasks 1).map (fun t => (t.state, t.queue))
      = some (.Waiting, DEFAULT_WAITING_QUEUE_NAME) ∧
    (alistLookup (schedule_tasks (fun _ => .spawned 99) sBoot1).tasks 1).map
        (fun t => (t.state, t.queue))
      = some (.Running, DEFAULT_WAITING_QUEUE_NAME) := by
  decide

/-- C5 amended: the placement step treats waiting_queue like any other
queue (the queue loop has no skip); with the boot-default waiting_queue
(priority 10, max_concurrent 1, empty running list), any waiting task with
gpu_require == 0 residing there — whatever its id, priority, creation time
or command — is transitioned to Running (and given the spawned pid) by a
single placement pass whose spawn succeeds. -/
theorem C5_waiting_queue_not_skipped (id ct prio : Nat) (pv : Int) (nm cmd lp : String) :
    (alistLookup (schedule_tasks (fun _ => .spawned pv) (add_task bootState
        { pid := none, id := id, name := nm, cmd := cmd, gpu_require := 0,
          state := .Waiting, log_path := lp, priority := prio,
          queue := DEFAULT_WAITING_QUEUE_NAME, create_time := ct, gpu_ids := [],
          failure_reason := none })).tasks id).map
        (fun u => (u.state, u.pid))
      = some (.Running, some pv) := by
  simp [schedule_tasks, schedule_queue, schedule_task_loop, add_task, bootState,
    ensure_default_queues_exist, initialState, add_queue, alistInsert, alistLookup,
    sorted_waiting_tasks, waiting_tasks_meta, qualifying_owned_gpus, owned_gpu_ids_raw,
    used_gpu_ids, update_task_state, set_task_pid, launch_task_process, applyOrKeep,
    adjustQueueLists, alistModify, DEFAULT_WAITING_QUEUE_NAME, DEFAULT_RUNNING_QUEUE_NAME,
    ResourceLimit.default, prioDescQ, prioDescT, List.foldl, List.insertionSort,
    List.orderedInsert]

/-- C8 counterexample: the claim's order (descending priority, ties broken
by ascending creation time) fails on a reachable state.  Starting from
boot, submit an older task to X and a newer equal-priority task to Q, then
move the older task into Q: Q's waiting list is [12, 11] (newer first), and
the attempt order produced by the placement step keeps the newer task
(create_time 100) ahead of the older one (create_time 50), because the
sort compares only priority and is stable over the list order. -/
theorem C8_fifo_cex :
    (alistLookup sC8.queues "Q").map (fun q => q.waiting_task_ids) = some [12, 11] ∧
    (alistLookup sC8.queues "Q").map (fun q =>
        (sorted_waiting_tasks sC8.tasks q).map (fun t => (t.id, t.priority, t.create_time)))
      = some [(12, 5, 100), (11, 5, 50)] ∧
    (alistLookup sC8.queues "Q").map (fun q =>
        decide ((sorted_waiting_tasks sC8.tasks q).Pairwise
          (fun a b => b.priority < a.priority ∨
            (a.priority = b.priority ∧ a.create_time ≤ b.create_time))))
      = some false := by
  decide

/-- C8 amended: during a placement cycle, a queue's waiting tasks are
attempted in descending priority order; among tasks of equal priority the
relative order is the queue's waiting-list order (the sort is stable and
compares only priority — creation time is not consulted, so FIFO-by-
creation holds only as far as the waiting list happens to be in creation
order). -/
theorem C8_priority_sort_stable (all_tasks : List (Nat × TaskMeta)) (q : QueueMeta) :
    (sorted_waiting_tasks all_tasks q).Sorted prioDescT ∧
    (sorted_waiting_tasks all_tasks q).Perm (waiting_tasks_meta all_tasks q) ∧
    (∀ a b : TaskMeta, List.Sublist [a, b] (waiting_tasks_meta all_tasks q) →
        a.priority = b.priority →
        List.Sublist [a, b] (sorted_waiting_tasks all_tasks q)) := by
  refine ⟨List.sorted_insertionSort prioDescT _, List.perm_insertionSort prioDescT _, ?_⟩
  intro a b hsub hpr
  exact List.pair_sublist_insertionSort (by exact le_of_eq hpr.symm) hsub

/-- Witness for C8: on Q's concrete waiting list [12, 11] with equal
priorities, the stability clause applied to the adjacent pair keeps the
newer task ahead of the older one in the attempt order. -/
theorem C8_priority_sort_witness :
    List.Sublist [taskNewQ, movedOldX] (sorted_waiting_tasks tasksFixC8 qFixC8) :=
  (C8_priority_sort_stable tasksFixC8 qFixC8).2.2 taskNewQ movedOldX (by decide) (by decide)

/-- Witness for C10: on the boot state holding `cpuTask` in waiting_queue,
a move of task 1 to waiting_queue is a successful no-op over both the state
operation and the handler. -/
theorem C10_move_witness :
    update_task_queue sBoot1 1 DEFAULT_WAITING_QUEUE_NAME = .ok sBoot1 ∧
    handle_queue_move sBoot1 1 DEFAULT_WAITING_QUEUE_NAME =
      (.Ack s!"Task {(1 : Nat)} is already in queue {DEFAULT_WAITING_QUEUE_NAME}", sBoot1) :=
  ⟨C10_move_to_current_queue_noop.1 sBoot1 1 DEFAULT_WAITING_QUEUE_NAME cpuTask
      (by decide) (by decide) (by decide),
   C10_move_to_current_queue_noop.2.1 sBoot1 1 DEFAULT_WAITING_QUEUE_NAME cpuTask
      (by decide) (by decide) (by decide)⟩

end GavelRS
